import Mathlib

/-!
Verification of the physics / performance core of the rocket-engine
simulator (`rocket_engine_ultimate.py`).

Modelling conventions for the shallow embedding:

* Python floats are modelled as exact real numbers (`ℝ`).  Caller-supplied
  numeric inputs and numeric table constants are rationals (`ℚ`), cast into
  `ℝ` inside the formulas; `x ** y` on floats becomes `Real.rpow`.
* A pure-Python float division `a / b` raises `ZeroDivisionError` when
  `b == 0`; it is embedded as `pydivQ` / `pydivR`, returning
  `Except EngErr _`.  NumPy array / `np.float64` arithmetic never raises
  (it silently produces `inf`/`nan` with warnings suppressed by
  `warnings.filterwarnings('ignore')`); those operations are embedded as
  total real arithmetic.
* Python `KeyError` on a dictionary lookup is `EngErr.keyError`.
* The dictionaries of reference records are association lists; only the
  record fields actually read by the embedded code are kept (the purely
  descriptive tags such as `toxicity`, `handling`, `cost`,
  `flight_heritage`, `density_impulse` are never read by the physics code
  and are omitted).
* `'Solid' in props['type']` (Python substring test) is `strContains`.
* The NumPy global random generator is modelled as a pair
  `Rng = (seed, position)` together with an arbitrary fixed Gaussian
  stream `g : ℕ → ℕ → ℝ` (seed → position → draw); `np.random.seed 42`
  replaces the state by `(42, 0)` and `np.random.randn n` consumes `n`
  positions of the stream.
-/

/-- Errors a Python computation in the engine can raise: a dictionary
lookup failure (`KeyError`) or a float division by zero
(`ZeroDivisionError`). -/
inductive EngErr where
  | keyError : EngErr
  | divByZero : EngErr
  deriving Repr, DecidableEq

/-- Pure-Python float division on rational values: raises
`ZeroDivisionError` when the denominator is zero. -/
def pydivQ (a b : ℚ) : Except EngErr ℚ :=
  if b = 0 then .error .divByZero else .ok (a / b)

/-- Pure-Python float division on real values: raises `ZeroDivisionError`
when the denominator is zero. -/
noncomputable def pydivR (a b : ℝ) : Except EngErr ℝ :=
  if b = 0 then .error .divByZero else .ok (a / b)

/-- Python's substring containment test `pat in s`. -/
def strContains (s pat : String) : Bool :=
  decide (pat.data <:+: s.data)

/-- Mean of the first `n` samples of a series (`np.mean` over an array of
length `n`). -/
noncomputable def seriesMean (n : ℕ) (f : ℕ → ℝ) : ℝ :=
  (∑ i ∈ Finset.range n, f i) / n

/-- Population standard deviation of the first `n` samples of a series
(`np.std`). -/
noncomputable def seriesStd (n : ℕ) (f : ℕ → ℝ) : ℝ :=
  Real.sqrt (seriesMean n (fun i => (f i - seriesMean n f) ^ 2))

/-- One propellant record of `AdvancedPropellantDatabase.PROPELLANTS`.
Fields that only some families carry (`burn_rate`, `pressure_exp` for
solids; `regression_rate`, `regression_exp` for hybrids) are `Option`s:
`none` models the key being absent from the Python dict, and reading an
absent key raises `KeyError` (`getField`). -/
structure PropRecord where
  type : String
  optimal_of : ℚ
  gamma_range : List ℚ
  c_star : ℚ
  combustion_temp : ℚ
  burn_rate : Option ℚ := none
  pressure_exp : Option ℚ := none
  regression_rate : Option ℚ := none
  regression_exp : Option ℚ := none
  deriving Repr, DecidableEq

/-- Reading a possibly-absent dict field: `KeyError` when missing. -/
def getField (x : Option ℚ) : Except EngErr ℚ :=
  match x with
  | some v => .ok v
  | none => .error .keyError

def RP1LOX : PropRecord :=
  { type := "Kerosene", optimal_of := 2.3, gamma_range := [1.18, 1.22, 1.26],
    c_star := 1800, combustion_temp := 3700 }

def MethaneLOX : PropRecord :=
  { type := "Methane", optimal_of := 3.5, gamma_range := [1.20, 1.25, 1.30],
    c_star := 1900, combustion_temp := 3600 }

def PropaneLOX : PropRecord :=
  { type := "Hydrocarbon", optimal_of := 3.0, gamma_range := [1.19, 1.23, 1.27],
    c_star := 1750, combustion_temp := 3650 }

def LH2LOX : PropRecord :=
  { type := "Hydrogen", optimal_of := 6.0, gamma_range := [1.12, 1.15, 1.18],
    c_star := 2300, combustion_temp := 3500 }

def SlushH2LOX : PropRecord :=
  { type := "Hydrogen", optimal_of := 6.0, gamma_range := [1.10, 1.13, 1.16],
    c_star := 2350, combustion_temp := 3450 }

def MMHNTO : PropRecord :=
  { type := "Hypergolic", optimal_of := 1.65, gamma_range := [1.20, 1.24, 1.28],
    c_star := 1740, combustion_temp := 3400 }

def UDMHNTO : PropRecord :=
  { type := "Hypergolic", optimal_of := 2.0, gamma_range := [1.21, 1.25, 1.29],
    c_star := 1720, combustion_temp := 3450 }

def Aerozine50NTO : PropRecord :=
  { type := "Hypergolic", optimal_of := 1.9, gamma_range := [1.20, 1.24, 1.28],
    c_star := 1760, combustion_temp := 3420 }

def H2O2Kerosene : PropRecord :=
  { type := "Green", optimal_of := 7.0, gamma_range := [1.18, 1.22, 1.26],
    c_star := 1600, combustion_temp := 2800 }

def LNGLOX : PropRecord :=
  { type := "Methane", optimal_of := 3.4, gamma_range := [1.19, 1.24, 1.29],
    c_star := 1850, combustion_temp := 3550 }

def ALICE : PropRecord :=
  { type := "Experimental", optimal_of := 1.2, gamma_range := [1.15, 1.18, 1.21],
    c_star := 1400, combustion_temp := 3200 }

def HydrogenPeroxide98 : PropRecord :=
  { type := "Monopropellant", optimal_of := 0.0, gamma_range := [1.13, 1.13, 1.13],
    c_star := 1200, combustion_temp := 1100 }

def HydrazineN2H4 : PropRecord :=
  { type := "Monopropellant", optimal_of := 0.0, gamma_range := [1.20, 1.20, 1.20],
    c_star := 1300, combustion_temp := 1200 }

def HTPBAPSolid : PropRecord :=
  { type := "Solid", optimal_of := 0.0, gamma_range := [1.18, 1.22, 1.26],
    c_star := 1580, combustion_temp := 3400,
    burn_rate := some 8.0, pressure_exp := some 0.3 }

def PBANAPSolid : PropRecord :=
  { type := "Solid", optimal_of := 0.0, gamma_range := [1.19, 1.23, 1.27],
    c_star := 1600, combustion_temp := 3450,
    burn_rate := some 7.5, pressure_exp := some 0.32 }

def DoubleBaseSolid : PropRecord :=
  { type := "Solid", optimal_of := 0.0, gamma_range := [1.17, 1.21, 1.25],
    c_star := 1550, combustion_temp := 3300,
    burn_rate := some 10.0, pressure_exp := some 0.25 }

def APCPSolid : PropRecord :=
  { type := "Solid", optimal_of := 0.0, gamma_range := [1.20, 1.24, 1.28],
    c_star := 1620, combustion_temp := 3500,
    burn_rate := some 9.0, pressure_exp := some 0.35 }

def HTPBN2OHybrid : PropRecord :=
  { type := "Hybrid", optimal_of := 7.5, gamma_range := [1.16, 1.19, 1.22],
    c_star := 1450, combustion_temp := 3200,
    regression_rate := some 1.2, regression_exp := some 0.8 }

def HTPBLOXHybrid : PropRecord :=
  { type := "Hybrid", optimal_of := 2.4, gamma_range := [1.18, 1.22, 1.26],
    c_star := 1700, combustion_temp := 3600,
    regression_rate := some 0.8, regression_exp := some 0.7 }

def ParaffinN2OHybrid : PropRecord :=
  { type := "Hybrid", optimal_of := 8.0, gamma_range := [1.15, 1.18, 1.21],
    c_star := 1480, combustion_temp := 3100,
    regression_rate := some 2.5, regression_exp := some 0.8 }

def PELOXHybrid : PropRecord :=
  { type := "Hybrid", optimal_of := 2.6, gamma_range := [1.17, 1.21, 1.25],
    c_star := 1680, combustion_temp := 3550,
    regression_rate := some 0.7, regression_exp := some 0.65 }

/-- The 21-entry propellant reference table
`AdvancedPropellantDatabase.PROPELLANTS`, keyed by propellant name. -/
def PROPELLANTS : List (String × PropRecord) :=
  [("RP-1/LOX", RP1LOX),
   ("Methane/LOX (CH4/LOX)", MethaneLOX),
   ("Propane/LOX", PropaneLOX),
   ("LH2/LOX", LH2LOX),
   ("Slush Hydrogen/LOX", SlushH2LOX),
   ("MMH/NTO", MMHNTO),
   ("UDMH/NTO", UDMHNTO),
   ("Aerozine-50/NTO", Aerozine50NTO),
   ("H2O2/Kerosene", H2O2Kerosene),
   ("LNG/LOX", LNGLOX),
   ("Aluminum/Ice (ALICE)", ALICE),
   ("Hydrogen Peroxide (98%)", HydrogenPeroxide98),
   ("Hydrazine (N2H4)", HydrazineN2H4),
   ("HTPB/AP (Solid)", HTPBAPSolid),
   ("PBAN/AP (Solid)", PBANAPSolid),
   ("Double-Base (Solid)", DoubleBaseSolid),
   ("APCP (Solid)", APCPSolid),
   ("HTPB/N2O (Hybrid)", HTPBN2OHybrid),
   ("HTPB/LOX (Hybrid)", HTPBLOXHybrid),
   ("Paraffin/N2O (Hybrid)", ParaffinN2OHybrid),
   ("PE/LOX (Hybrid)", PELOXHybrid)]

/-- Dictionary access `PROPELLANTS[propellant]`: `KeyError` when the key
is absent. -/
def lookupProp (propellant : String) : Except EngErr PropRecord :=
  match PROPELLANTS.lookup propellant with
  | some r => .ok r
  | none => .error .keyError

/-- One material record of `AdvancedMaterialDatabase.MATERIALS`; only the
fields read by the embedded physics code are kept (`yield_strength` for
the safety factors, `erosion_rate` as the base erosion coefficient). -/
structure MaterialRecord where
  yield_strength : ℚ
  erosion_rate : ℚ
  deriving Repr, DecidableEq

/-- The six-entry material reference table
`AdvancedMaterialDatabase.MATERIALS`. -/
def MATERIALS : List (String × MaterialRecord) :=
  [("Copper (OFHC)", { yield_strength := 200000000, erosion_rate := 0.005 }),
   ("Inconel 718", { yield_strength := 1034000000, erosion_rate := 0.002 }),
   ("Tungsten-Copper (W-Cu)", { yield_strength := 800000000, erosion_rate := 0.001 }),
   ("Silicon Carbide (SiC)", { yield_strength := 400000000, erosion_rate := 0.0005 }),
   ("Cobalt Superalloy", { yield_strength := 800000000, erosion_rate := 0.003 }),
   ("Molybdenum (TZM)", { yield_strength := 600000000, erosion_rate := 0.0015 })]

/-- Dictionary access `MATERIALS[material]`. -/
def lookupMat (material : String) : Except EngErr MaterialRecord :=
  match MATERIALS.lookup material with
  | some r => .ok r
  | none => .error .keyError

/-- Keys and efficiencies of `EngineCycleDatabase.CYCLES` (the remaining
fields are descriptive strings never used numerically). -/
def CYCLES : List (String × ℚ) :=
  [("Gas Generator", 0.92),
   ("Staged Combustion (Fuel-rich)", 0.96),
   ("Staged Combustion (Oxidizer-rich)", 0.95),
   ("Expander Cycle", 0.94),
   ("Pressure Fed", 0.85),
   ("Electric Pump Fed", 0.93)]

/-- Dictionary access `CYCLES[cycle_name]`. -/
def lookupCycle (cycle : String) : Except EngErr ℚ :=
  match CYCLES.lookup cycle with
  | some r => .ok r
  | none => .error .keyError

/-- Keys and divergence efficiencies of
`NozzleDesignDatabase.NOZZLE_TYPES`. -/
def NOZZLE_TYPES : List (String × ℚ) :=
  [("Conical (15°)", 0.96),
   ("Bell (NASA-SP)", 0.98),
   ("Bell (Rao)", 0.985),
   ("C-D (Converging-Diverging)", 0.97),
   ("C-D (Short)", 0.95),
   ("C-D (Optimized)", 0.975),
   ("Aerospike (Linear)", 0.99),
   ("Aerospike (Annular)", 0.99),
   ("Dual-Bell", 0.97),
   ("Expansion-Deflection", 0.96)]

/-- Dictionary access `NOZZLE_TYPES[nozzle_type]`. -/
def lookupNozzle (nozzle : String) : Except EngErr ℚ :=
  match NOZZLE_TYPES.lookup nozzle with
  | some r => .ok r
  | none => .error .keyError

/-- Specific-heat-ratio selection
(`PhysicsEngineWithExplanation.calculate_gamma`), record level.  For
`optimal_of = 0` (solid / monopropellant) the middle entry is returned
unconditionally (with the source's `1.2` fallback for short lists,
mirrored here by `List.getD`; every table entry has three entries). -/
def gammaR (props : PropRecord) (ofRat : ℚ) : ℚ :=
  if props.optimal_of = 0 then props.gamma_range.getD 1 1.2
  else if ofRat < props.optimal_of * 0.8 then props.gamma_range.getD 0 1.2
  else if ofRat < props.optimal_of * 1.2 then props.gamma_range.getD 1 1.2
  else props.gamma_range.getD 2 1.2

/-- Key-level `calculate_gamma`: dictionary lookup then `gammaR`. -/
def calculate_gamma (propellant : String) (ofRat : ℚ) : Except EngErr ℚ := do
  let props ← lookupProp propellant
  pure (gammaR props ofRat)

/-- Characteristic velocity
(`PhysicsEngineWithExplanation.calculate_c_star`), record level: base c*
times pressure, O/F and temperature correction factors. -/
noncomputable def cStarR (props : PropRecord) (Pc ofRat : ℚ) : ℝ :=
  let base_cstar : ℝ := props.c_star
  let pressure_factor : ℝ :=
    if 0 < Pc then ((Pc : ℝ) / 20.0) ^ (0.05 : ℝ) else 1.0
  let of_factor : ℝ :=
    if 0 < props.optimal_of then
      1.0 - 0.02 * (((ofRat : ℝ) - (props.optimal_of : ℝ)) / (props.optimal_of : ℝ)) ^ 2
    else 1.0
  let temp_factor : ℝ := 1.0 + 0.0001 * ((props.combustion_temp : ℝ) - 3500)
  base_cstar * pressure_factor * of_factor * temp_factor

/-- Key-level `calculate_c_star`: dictionary lookup then `cStarR`. -/
noncomputable def calculate_c_star (propellant : String) (Pc ofRat : ℚ) :
    Except EngErr ℝ := do
  let props ← lookupProp propellant
  pure (cStarR props Pc ofRat)

/-- Fixed injector-geometry factor table of
`calculate_combustion_efficiency`. -/
def INJECTOR_FACTORS : List (String × ℚ) :=
  [("coaxial", 1.00), ("like-on-like", 0.98), ("impinging", 0.97), ("swirl", 0.96)]

/-- Combustion efficiency
(`PhysicsEngineWithExplanation.calculate_combustion_efficiency`).  The
O/F-deviation factor divides by `optimal_of` whenever the type string
does not contain `"Solid"`; this is a raising float division
(`EngErr.divByZero` when `optimal_of = 0`, i.e. for monopropellants).
The result of the non-raising path is clamped to `[0.85, 0.995]`. -/
noncomputable def calculate_combustion_efficiency
    (propellant : String) (Pc ofRat : ℚ) (injector_type : String) :
    Except EngErr ℝ := do
  let props ← lookupProp propellant
  let base_eff : ℝ :=
    if strContains props.type "Solid" then 0.99
    else if strContains props.type "Hybrid" then 0.96
    else if propellant = "LH2/LOX" ∨ propellant = "Slush Hydrogen/LOX" then 0.985
    else if strContains props.type "Hypergolic" then 0.99
    else 0.98
  let of_factor : ℝ ←
    if strContains props.type "Solid" then pure 1.0
    else do
      let of_deviation ← pydivQ |ofRat - props.optimal_of| props.optimal_of
      pure (1.0 - 0.03 * ((of_deviation : ℝ)) ^ (1.5 : ℝ))
  let pressure_factor : ℝ := 1.0 + 0.001 * ((Pc : ℝ) - 20.0)
  let injector_factor : ℝ :=
    if strContains props.type "Solid" then 1.0
    else (((INJECTOR_FACTORS.lookup injector_type).getD 0.97 : ℚ) : ℝ)
  let Lstar_factor : ℝ := 1.0
  let efficiency := base_eff * of_factor * pressure_factor * injector_factor * Lstar_factor
  pure (min 0.995 (max 0.85 efficiency))

/-- Nozzle efficiency
(`PhysicsEngineWithExplanation.calculate_nozzle_efficiency`): ideal 0.98
minus boundary-layer loss and bracketed divergence loss, floored at 0.90.
`Pe` and `gamma` are accepted and ignored, as in the source. -/
noncomputable def calculate_nozzle_efficiency (expansion_ratio Pc Pe gamma : ℚ) : ℝ :=
  let ideal_eff : ℝ := 0.98
  let boundary_loss : ℝ := 0.015 * ((Pc : ℝ) / 50.0) ^ (0.5 : ℝ)
  let divergence_loss : ℝ :=
    if expansion_ratio < 30 then 0.01
    else if expansion_ratio < 60 then 0.02
    else 0.03
  let two_phase_loss : ℝ := 0.0
  max 0.90 (ideal_eff - boundary_loss - divergence_loss - two_phase_loss)

/-- Erosion rate (`PhysicsEngineWithExplanation.calculate_erosion_rate`). -/
noncomputable def calculate_erosion_rate
    (Pc : ℚ) (material_name : String) (heat_flux : ℚ) (propellant : String) :
    Except EngErr ℝ := do
  let material ← lookupMat material_name
  let base_rate : ℝ := material.erosion_rate
  let pressure_factor : ℝ := ((Pc : ℝ) / 35.0) ^ (1.5 : ℝ)
  let heat_flux_factor : ℝ := ((heat_flux : ℝ) / 5000000) ^ (0.8 : ℝ)
  let prop_factor : ℝ :=
    if strContains propellant "LOX" then 1.2
    else if strContains propellant "NTO" then 1.3
    else 1.0
  let temp_factor : ℝ := 1.0 + 0.001 * ((heat_flux : ℝ) / 1000000)
  pure (base_rate * pressure_factor * heat_flux_factor * prop_factor * temp_factor)

/-- Vieille's-law solid burn rate
(`PhysicsEngineWithExplanation.calculate_solid_burn_rate`), record level:
0 for non-solids, otherwise `a * Pc^n` with
`a = burn_rate / 70^pressure_exp` back-derived from the 70-bar reference
value. -/
noncomputable def solidBurnRateR (props : PropRecord) (Pc : ℚ) : Except EngErr ℝ :=
  if strContains props.type "Solid" = false then .ok 0.0
  else do
    let br ← getField props.burn_rate
    let n ← getField props.pressure_exp
    let a : ℝ := (br : ℝ) / (70.0 : ℝ) ^ ((n : ℚ) : ℝ)
    let burn_rate := a * ((Pc : ℝ) ^ ((n : ℚ) : ℝ))
    let temp_factor : ℝ := 1.0
    .ok (burn_rate * temp_factor)

/-- Key-level `calculate_solid_burn_rate`. -/
noncomputable def calculate_solid_burn_rate (propellant : String) (Pc : ℚ) :
    Except EngErr ℝ := do
  let props ← lookupProp propellant
  solidBurnRateR props Pc

/-- Marxman-style hybrid regression rate
(`PhysicsEngineWithExplanation.calculate_hybrid_regression_rate`), record
level: 0 for non-hybrids, otherwise `a * Gox^m * Pc^n` with the pressure
exponent `n` fixed at 0 and `a = regression_rate / 200^regression_exp`
back-derived from the flux-200 reference value. -/
noncomputable def hybridRegressionRateR (props : PropRecord) (oxidizer_flux Pc : ℚ) :
    Except EngErr ℝ :=
  if strContains props.type "Hybrid" = false then .ok 0.0
  else do
    let rr ← getField props.regression_rate
    let m ← getField props.regression_exp
    let a : ℝ := (rr : ℝ) / (200.0 : ℝ) ^ ((m : ℚ) : ℝ)
    let n : ℝ := 0.0
    .ok (a * ((oxidizer_flux : ℝ) ^ ((m : ℚ) : ℝ)) * ((Pc : ℝ) ^ n))

/-- Key-level `calculate_hybrid_regression_rate`. -/
noncomputable def calculate_hybrid_regression_rate
    (propellant : String) (oxidizer_flux Pc : ℚ) : Except EngErr ℝ := do
  let props ← lookupProp propellant
  hybridRegressionRateR props oxidizer_flux Pc

/-- One acoustic mode (frequency and pressure-scaled growth rate) of
`AcousticAnalysisEngine.analyze_acoustic_modes`. -/
structure AcousticMode where
  frequency : ℝ
  growth_rate : ℝ

/-- Output of `AcousticAnalysisEngine.analyze_acoustic_modes`. -/
structure AcousticResult where
  mode1L : AcousticMode
  mode1T : AcousticMode
  mode1R : AcousticMode
  dangerous_modes : List String
  stability_margin_label : String
  stability_margin_value : ℚ

/-- Acoustic mode analysis (`AcousticAnalysisEngine.analyze_acoustic_modes`):
family-keyed speed of sound, 1L/1T/1R frequencies from the chamber
geometry, growth rates scaled by `(Pc/35)^0.8`, dangerous modes above
growth 0.1, and the categorical stability margin. -/
noncomputable def analyze_acoustic_modes
    (Pc : ℚ) (chamber_length chamber_diameter : ℝ) (propellant : String) :
    AcousticResult :=
  let sound_speed : ℝ :=
    if strContains propellant "LH2" then 1400
    else if strContains propellant "RP-1" then 1200
    else 1300
  let f1L := sound_speed / (2 * chamber_length)
  let f1T := 1.84 * sound_speed / (Real.pi * chamber_diameter)
  let f1R := 3.83 * sound_speed / (Real.pi * chamber_diameter)
  let pressure_factor : ℝ := ((Pc : ℝ) / 35.0) ^ (0.8 : ℝ)
  let g1L := 0.05 * pressure_factor
  let g1T := 0.12 * pressure_factor
  let g1R := 0.03 * pressure_factor
  let dangerous :=
    (if g1L > 0.1 then ["1L"] else []) ++
    (if g1T > 0.1 then ["1T"] else []) ++
    (if g1R > 0.1 then ["1R"] else [])
  let max_growth := max g1L (max g1T g1R)
  let margin : String × ℚ :=
    if max_growth < 0.05 then ("Excellent", 95)
    else if max_growth < 0.1 then ("Good", 80)
    else ("Poor", 50)
  { mode1L := { frequency := f1L, growth_rate := g1L },
    mode1T := { frequency := f1T, growth_rate := g1T },
    mode1R := { frequency := f1R, growth_rate := g1R },
    dangerous_modes := dangerous,
    stability_margin_label := margin.1,
    stability_margin_value := margin.2 }

/-- One deviation explanation record
(`PhysicsEngineWithExplanation.explain_differences` output; the
`f"{deviation:+.1f}%"` display string is presentation-only and omitted). -/
structure Explanation where
  severity : String
  reasons : List String
  recommendations : List String
  physics_notes : List String
  deriving Repr, DecidableEq

/-- Thrust-deviation explainer
(`PhysicsEngineWithExplanation._explain_thrust_difference`): strictly
above +5 percent is the higher bucket, strictly below −5 percent the
lower bucket, everything else the within-range bucket. -/
noncomputable def explainThrustDifference (deviation : ℝ) : Explanation :=
  if deviation > 5 then
    { severity := "⚠️ HIGHER THAN EXPECTED",
      reasons :=
        ["Pressure measurement calibration error (±3-5%)",
         "Combustion more efficient than predicted",
         "Fuel-rich mixture increasing chamber pressure",
         "Nozzle expansion better than design",
         "Instrumentation thermal drift"],
      recommendations :=
        ["Re-calibrate pressure transducers",
         "Verify mixture ratio measurements",
         "Check for combustion instability",
         "Review theoretical assumptions"],
      physics_notes :=
        ["Theoretical assumes 100% combustion efficiency",
         "Experimental includes real-world losses",
         "Nozzle divergence losses not in ideal theory",
         "Boundary layer effects reduce actual thrust"] }
  else if deviation < -5 then
    { severity := "🔻 LOWER THAN EXPECTED",
      reasons :=
        ["Combustion inefficiencies (2-8% typical)",
         "Nozzle boundary layer losses (3-5%)",
         "Heat losses to chamber walls (2-4%)",
         "Incomplete fuel atomization",
         "Injector pattern deficiencies",
         "Film cooling flow rate too high"],
      recommendations :=
        ["Optimize injector design",
         "Increase chamber L* for complete combustion",
         "Review cooling flow distribution",
         "Check for propellant vaporization issues"],
      physics_notes :=
        ["Theoretical assumes 100% combustion efficiency",
         "Experimental includes real-world losses",
         "Nozzle divergence losses not in ideal theory",
         "Boundary layer effects reduce actual thrust"] }
  else
    { severity := "✅ WITHIN EXPECTED RANGE",
      reasons :=
        ["Normal manufacturing tolerances (±2-3%)",
         "Expected test-to-test variability",
         "Measurement system accuracy limits",
         "Environmental condition variations"],
      recommendations :=
        ["Continue monitoring",
         "Document test conditions",
         "Establish statistical baseline"],
      physics_notes :=
        ["Theoretical assumes 100% combustion efficiency",
         "Experimental includes real-world losses",
         "Nozzle divergence losses not in ideal theory",
         "Boundary layer effects reduce actual thrust"] }

/-- Aggregate assessment record
(`PhysicsEngineWithExplanation.get_overall_assessment` output). -/
structure Assessment where
  grade : String
  verdict : String
  color : String
  summary : String
  action : String
  deriving Repr, DecidableEq

/-- The four fixed grade records of `get_overall_assessment`. -/
def assessmentAPlus : Assessment :=
  { grade := "A+", verdict := "EXCELLENT", color := "#10b981",
    summary := "Engine performance matches theoretical predictions exceptionally well.",
    action := "Ready for flight operations" }

def assessmentBPlus : Assessment :=
  { grade := "B+", verdict := "GOOD", color := "#3b82f6",
    summary := "Minor deviations observed but within acceptable engineering limits.",
    action := "Continue with monitoring" }

def assessmentC : Assessment :=
  { grade := "C", verdict := "REQUIRES ATTENTION", color := "#f59e0b",
    summary := "Significant deviations detected requiring investigation.",
    action := "Review design and testing parameters" }

def assessmentD : Assessment :=
  { grade := "D", verdict := "NEEDS IMPROVEMENT", color := "#ef4444",
    summary := "Large discrepancies between theoretical and experimental values.",
    action := "Major redesign or parameter adjustment needed" }

/-- Aggregate classifier
(`PhysicsEngineWithExplanation.get_overall_assessment`): mean absolute
deviation bucketed by strict thresholds 2 / 5 / 10. -/
noncomputable def get_overall_assessment (deviations : List ℝ) : Assessment :=
  let avg_dev : ℝ := ((deviations.map (fun d => |d|)).sum) / (deviations.length : ℝ)
  if avg_dev < 2 then assessmentAPlus
  else if avg_dev < 5 then assessmentBPlus
  else if avg_dev < 10 then assessmentC
  else assessmentD

/-- Caller-supplied parameter dictionary of `UltimateRocketEngine` (the
`params` dict).  `cycle` and `nozzle_type` are read with `.get` and a
default, so they are `Option`s. -/
structure OperatingParams where
  thrust : ℚ
  Pc : ℚ
  ofRat : ℚ
  burn_time : ℚ
  propellant : String
  expansion_ratio : ℚ
  material : String
  injector_type : String := "coaxial"
  cycle : Option String := none
  nozzle_type : Option String := none
  deriving Repr, DecidableEq

/-- State of the NumPy global random generator: seed and stream
position. -/
abbrev Rng := ℕ × ℕ

/-- Model of `np.random.seed`. -/
def seedRng (seed : ℕ) : Rng := (seed, 0)

/-- Model of `np.random.randn(1000)` against an abstract Gaussian stream
`g` (seed → position → value): returns the sample function and advances
the state by 1000 positions. -/
def randnArr (g : ℕ → ℕ → ℝ) (st : Rng) : (ℕ → ℝ) × Rng :=
  (fun i => g st.1 (st.2 + i), (st.1, st.2 + 1000))

/-- Sample `i` of `np.linspace(0, burn_time, 1000)`. -/
noncomputable def timeAt (burn_time : ℚ) (i : ℕ) : ℝ :=
  (burn_time : ℝ) * i / 999

/-- Derived theoretical values of
`UltimateRocketEngine.calculate_theoretical_performance` (after the
solid/hybrid adjustments).  `At`, `Ae`, `F_theoretical` stay rational:
they involve only field arithmetic on the rational inputs. -/
structure TheoResult where
  gamma : ℚ
  c_star : ℝ
  At : ℚ
  Dt : ℝ
  Dc : ℝ
  Lc : ℝ
  Ae : ℚ
  De : ℝ
  Ln : ℝ
  mdot_theoretical : ℝ
  Cf : ℚ
  F_theoretical : ℚ
  Isp_theoretical : ℝ
  combustion_efficiency : ℝ
  nozzle_efficiency : ℝ
  acoustic_results : AcousticResult
  burn_rate : Option ℝ := none
  regression_rate : Option ℝ := none

/-- The `calculate_theoretical_performance` stage, in source order:
propellant and material lookups first, then gamma / c*, geometry from the
fixed `Cf = 1.5` assumption, mass flow, thrust, ISP, efficiencies,
acoustic analysis, and finally the solid / hybrid family adjustments
(mass flow ×0.95 and ISP ×0.92 for solids, ISP ×0.94 for hybrids). -/
noncomputable def calcTheoretical (p : OperatingParams) : Except EngErr TheoResult := do
  let prop ← lookupProp p.propellant
  let _mat ← lookupMat p.material
  let gamma ← calculate_gamma p.propellant p.ofRat
  let c_star ← calculate_c_star p.propellant p.Pc p.ofRat
  let Pc_Pa : ℚ := p.Pc * 100000
  let At ← pydivQ p.thrust (Pc_Pa * 1.5)
  let Dt : ℝ := Real.sqrt (4 * (At : ℝ) / Real.pi)
  let Dc : ℝ := Dt * 2.5
  let Lc : ℝ := Dc * 1.5
  let Ae : ℚ := At * p.expansion_ratio
  let De : ℝ := Real.sqrt (4 * (Ae : ℝ) / Real.pi)
  let Ln : ℝ := De * 2.0
  let mdot ← pydivR ((Pc_Pa : ℝ) * (At : ℝ)) c_star
  let Cf : ℚ := 1.5
  let F : ℚ := Pc_Pa * At * Cf
  let Isp ← pydivR (F : ℝ) (mdot * 9.80665)
  let combustion_efficiency ← calculate_combustion_efficiency p.propellant p.Pc p.ofRat "coaxial"
  let nozzle_efficiency := calculate_nozzle_efficiency p.expansion_ratio p.Pc 1.0 gamma
  let acoustic_results := analyze_acoustic_modes p.Pc Lc Dc p.propellant
  if strContains prop.type "Solid" then do
    let br ← calculate_solid_burn_rate p.propellant p.Pc
    pure { gamma, c_star, At, Dt, Dc, Lc, Ae, De, Ln,
           mdot_theoretical := mdot * 0.95, Cf, F_theoretical := F,
           Isp_theoretical := Isp * 0.92, combustion_efficiency,
           nozzle_efficiency, acoustic_results, burn_rate := some br }
  else if strContains prop.type "Hybrid" then do
    let rr ← calculate_hybrid_regression_rate p.propellant 200.0 p.Pc
    pure { gamma, c_star, At, Dt, Dc, Lc, Ae, De, Ln,
           mdot_theoretical := mdot, Cf, F_theoretical := F,
           Isp_theoretical := Isp * 0.94, combustion_efficiency,
           nozzle_efficiency, acoustic_results, regression_rate := some rr }
  else
    pure { gamma, c_star, At, Dt, Dc, Lc, Ae, De, Ln,
           mdot_theoretical := mdot, Cf, F_theoretical := F,
           Isp_theoretical := Isp, combustion_efficiency,
           nozzle_efficiency, acoustic_results }

/-- The five synthetic experimental series of
`UltimateRocketEngine.generate_experimental_data`, as sample functions
over indices 0..999. -/
structure ExperData where
  F_experimental : ℕ → ℝ
  Pc_experimental : ℕ → ℝ
  mdot_experimental : ℕ → ℝ
  Isp_experimental : ℕ → ℝ
  Tc_experimental : ℕ → ℝ

/-- The `generate_experimental_data` stage: perturbs the theoretical
values with two fixed sinusoids, a thermal-drift ramp, fixed-seed
Gaussian noise and the first-longitudinal acoustic sinusoid; the three
`np.random.randn(1000)` draws consume the generator state in source
order (thrust noise, pressure noise, mass-flow noise). -/
noncomputable def generate_experimental_data
    (g : ℕ → ℕ → ℝ) (st : Rng) (p : OperatingParams) (prop : PropRecord)
    (th : TheoResult) : ExperData × Rng :=
  let total_efficiency := th.combustion_efficiency * th.nozzle_efficiency * 0.98
  let base_F := (th.F_theoretical : ℝ) * total_efficiency
  let t := timeAt p.burn_time
  let drawn1 := randnArr g st
  let F_exp : ℕ → ℝ := fun i =>
    base_F * (1 +
      (0.02 * Real.sin (2 * Real.pi * 100 * t i) +
       0.01 * Real.sin (2 * Real.pi * 500 * t i) +
       0.001 * t i / (p.burn_time : ℝ) +
       0.005 * drawn1.1 i +
       0.003 * Real.sin (2 * Real.pi * th.acoustic_results.mode1L.frequency * t i)))
  let drawn2 := randnArr g drawn1.2
  let Pc_exp : ℕ → ℝ := fun i =>
    (p.Pc : ℝ) * (1 + 0.03 * Real.sin (2 * Real.pi * 50 * t i) + 0.01 * drawn2.1 i)
  let drawn3 := randnArr g drawn2.2
  let mdot_exp : ℕ → ℝ := fun i =>
    th.mdot_theoretical * 1.02 *
      (1 + 0.005 * Real.sin (2 * Real.pi * 200 * t i) + 0.002 * drawn3.1 i)
  let Isp_exp : ℕ → ℝ := fun i => F_exp i / (mdot_exp i * 9.80665)
  let Tc_exp : ℕ → ℝ := fun i =>
    (prop.combustion_temp : ℝ) * total_efficiency *
      (1 + 0.01 * Real.sin (2 * Real.pi * 80 * t i))
  ({ F_experimental := F_exp, Pc_experimental := Pc_exp,
     mdot_experimental := mdot_exp, Isp_experimental := Isp_exp,
     Tc_experimental := Tc_exp }, drawn3.2)

/-- Aggregate outputs of `UltimateRocketEngine.analyze_all_aspects`. -/
structure Aspects where
  dev_thrust : ℝ
  dev_isp : ℝ
  dev_mdot : ℝ
  dev_pressure : ℝ
  eff_combustion : ℝ
  eff_nozzle : ℝ
  eff_overall : ℝ
  eff_total : ℝ
  erosion_rate : ℝ
  sf_throat : ℝ
  sf_chamber : ℝ
  pressure_stability : ℝ
  thrust_stability : ℝ
  acoustic_stability_label : String

/-- The `analyze_all_aspects` stage.  The deviation / efficiency /
stability divisions act on `np.float64` means, which never raise (they
produce `inf`/`nan` silently), so they are total real divisions here;
the only failure points are the two dictionary lookups (erosion material
and structural material). -/
noncomputable def analyze_all_aspects (p : OperatingParams) (th : TheoResult)
    (ex : ExperData) : Except EngErr Aspects := do
  let dev_thrust :=
    (seriesMean 1000 ex.F_experimental - (th.F_theoretical : ℝ)) / (th.F_theoretical : ℝ) * 100
  let dev_isp :=
    (seriesMean 1000 ex.Isp_experimental - th.Isp_theoretical) / th.Isp_theoretical * 100
  let dev_mdot :=
    (seriesMean 1000 ex.mdot_experimental - th.mdot_theoretical) / th.mdot_theoretical * 100
  let dev_pressure :=
    (seriesMean 1000 ex.Pc_experimental - (p.Pc : ℝ)) / (p.Pc : ℝ) * 100
  let eff_combustion := th.combustion_efficiency * 100
  let eff_nozzle := th.nozzle_efficiency * 100
  let eff_overall := seriesMean 1000 ex.F_experimental / (th.F_theoretical : ℝ) * 100
  let eff_total := th.combustion_efficiency * th.nozzle_efficiency * 100
  let erosion_rate ← calculate_erosion_rate p.Pc p.material 5000000 p.propellant
  let mat ← lookupMat p.material
  let thermal_stress : ℝ := 100000000
  let sf_throat := (mat.yield_strength : ℝ) / thermal_stress
  let sf_chamber := (mat.yield_strength : ℝ) / (thermal_stress * 0.7)
  let pressure_stability :=
    seriesStd 1000 ex.Pc_experimental / seriesMean 1000 ex.Pc_experimental * 100
  let thrust_stability :=
    seriesStd 1000 ex.F_experimental / seriesMean 1000 ex.F_experimental * 100
  pure { dev_thrust, dev_isp, dev_mdot, dev_pressure,
         eff_combustion, eff_nozzle, eff_overall, eff_total,
         erosion_rate, sf_throat, sf_chamber,
         pressure_stability, thrust_stability,
         acoustic_stability_label := th.acoustic_results.stability_margin_label }

/-- A fully constructed engine session (`UltimateRocketEngine` after
`__init__` returns).  The explanation records built by
`generate_explanations` are pure canned-text functions of the deviations
and are omitted from the session state. -/
structure EngineSession where
  theoretical : TheoResult
  experimental : ExperData
  aspects : Aspects

/-- Session construction (`UltimateRocketEngine.__init__`): re-seeds the
global generator with the fixed seed 42 (discarding the incoming state
`st`), then runs `calculate_theoretical_performance`,
`generate_experimental_data` and `analyze_all_aspects` in order.  Any
raised error aborts the whole construction: no partial session value
exists. -/
noncomputable def mkSession (g : ℕ → ℕ → ℝ) (st : Rng) (p : OperatingParams) :
    Except EngErr EngineSession :=
  let st0 := seedRng 42
  do
    let th ← calcTheoretical p
    let prop ← lookupProp p.propellant
    let exd := generate_experimental_data g st0 p prop th
    let asp ← analyze_all_aspects p th exd.1
    pure { theoretical := th, experimental := exd.1, aspects := asp }

/-- Cycle analysis (`UltimateRocketEngine.analyze_engine_cycle`): called
on demand after construction; reads the cycle key with a `.get` default
and only then looks it up in `CYCLES`. -/
def analyze_engine_cycle (p : OperatingParams) : Except EngErr (String × ℚ) := do
  let cycle_name := p.cycle.getD "Gas Generator"
  let eff ← lookupCycle cycle_name
  pure (cycle_name, eff)

/-- Nozzle analysis (`UltimateRocketEngine.analyze_nozzle_performance`):
called on demand after construction; reads the nozzle key with a `.get`
default and only then looks it up in `NOZZLE_TYPES`. -/
def analyze_nozzle_performance (p : OperatingParams) : Except EngErr (String × ℚ) := do
  let nozzle_type := p.nozzle_type.getD "C-D (Converging-Diverging)"
  let de ← lookupNozzle nozzle_type
  pure (nozzle_type, de)

lemma okBind {α β : Type} (a : α) (f : α → Except EngErr β) :
    (Except.ok a >>= f) = f a := rfl

lemma errBind {α β : Type} (e : EngErr) (f : α → Except EngErr β) :
    ((Except.error e : Except EngErr α) >>= f) = .error e := rfl

/-- Every table record has a positive base c* and a combustion
temperature of at least 1100 K. -/
lemma propTableBounds : ∀ e ∈ PROPELLANTS, 0 < e.2.c_star ∧ 1100 ≤ e.2.combustion_temp := by
  decide

/-- Every solid record of the table carries `burn_rate` and
`pressure_exp`. -/
lemma solidFieldsPresent : ∀ e ∈ PROPELLANTS, strContains e.2.type "Solid" = true →
    e.2.burn_rate.isSome = true ∧ e.2.pressure_exp.isSome = true := by
  decide

/-- Every hybrid record of the table carries `regression_rate` and
`regression_exp`. -/
lemma hybridFieldsPresent : ∀ e ∈ PROPELLANTS, strContains e.2.type "Hybrid" = true →
    e.2.regression_rate.isSome = true ∧ e.2.regression_exp.isSome = true := by
  decide

/-- C8: for the thrust parameter kind, the deviation explainer puts a
signed percent deviation of exactly +5.0 in the within-expected-range
bucket, not the higher bucket: the higher bucket is exactly
`deviation > 5`, the lower bucket exactly `deviation < -5`, and every
other deviation lands in the within-range bucket. -/
theorem C8_thrust_explainer_bucket_boundaries :
    (explainThrustDifference 5).severity = "✅ WITHIN EXPECTED RANGE" ∧
    ∀ d : ℝ,
      ((explainThrustDifference d).severity = "⚠️ HIGHER THAN EXPECTED" ↔ 5 < d) ∧
      ((explainThrustDifference d).severity = "🔻 LOWER THAN EXPECTED" ↔ d < -5) ∧
      ((explainThrustDifference d).severity = "✅ WITHIN EXPECTED RANGE" ↔ -5 ≤ d ∧ d ≤ 5) := by
  have main : ∀ d : ℝ,
      ((explainThrustDifference d).severity = "⚠️ HIGHER THAN EXPECTED" ↔ 5 < d) ∧
      ((explainThrustDifference d).severity = "🔻 LOWER THAN EXPECTED" ↔ d < -5) ∧
      ((explainThrustDifference d).severity = "✅ WITHIN EXPECTED RANGE" ↔ -5 ≤ d ∧ d ≤ 5) := by
    intro d
    unfold explainThrustDifference
    split_ifs with h1 h2
    · exact ⟨iff_of_true rfl h1,
        iff_of_false (by decide) (by intro h; linarith),
        iff_of_false (by decide) (fun h => absurd h1 (not_lt.mpr h.2))⟩
    · exact ⟨iff_of_false (by decide) (by intro h; linarith),
        iff_of_true rfl h2,
        iff_of_false (by decide) (fun h => absurd h2 (not_lt.mpr h.1))⟩
    · exact ⟨iff_of_false (by decide) h1,
        iff_of_false (by decide) h2,
        iff_of_true rfl ⟨not_lt.mp h2, not_lt.mp h1⟩⟩
  refine ⟨?_, main⟩
  have := (main 5).2.2
  exact this.mpr ⟨by norm_num, le_refl 5⟩

/-- C9: `get_overall_assessment` buckets the mean absolute deviation by
strict thresholds into exactly the four fixed grade records (A+ below 2,
B+ below 5, C below 10, D otherwise, each with its fixed verdict and
action strings), and a mean absolute deviation of exactly 2.0 yields the
B+ record. -/
theorem C9_overall_assessment_strict_thresholds :
    (get_overall_assessment [2]).grade = "B+" ∧
    ∀ devs : List ℝ,
      ((get_overall_assessment devs = assessmentAPlus ↔
          ((devs.map (fun d => |d|)).sum) / (devs.length : ℝ) < 2) ∧
       (get_overall_assessment devs = assessmentBPlus ↔
          2 ≤ ((devs.map (fun d => |d|)).sum) / (devs.length : ℝ) ∧
          ((devs.map (fun d => |d|)).sum) / (devs.length : ℝ) < 5) ∧
       (get_overall_assessment devs = assessmentC ↔
          5 ≤ ((devs.map (fun d => |d|)).sum) / (devs.length : ℝ) ∧
          ((devs.map (fun d => |d|)).sum) / (devs.length : ℝ) < 10) ∧
       (get_overall_assessment devs = assessmentD ↔
          10 ≤ ((devs.map (fun d => |d|)).sum) / (devs.length : ℝ))) := by
  have main : ∀ devs : List ℝ,
      ((get_overall_assessment devs = assessmentAPlus ↔
          ((devs.map (fun d => |d|)).sum) / (devs.length : ℝ) < 2) ∧
       (get_overall_assessment devs = assessmentBPlus ↔
          2 ≤ ((devs.map (fun d => |d|)).sum) / (devs.length : ℝ) ∧
          ((devs.map (fun d => |d|)).sum) / (devs.length : ℝ) < 5) ∧
       (get_overall_assessment devs = assessmentC ↔
          5 ≤ ((devs.map (fun d => |d|)).sum) / (devs.length : ℝ) ∧
          ((devs.map (fun d => |d|)).sum) / (devs.length : ℝ) < 10) ∧
       (get_overall_assessment devs = assessmentD ↔
          10 ≤ ((devs.map (fun d => |d|)).sum) / (devs.length : ℝ))) := by
    intro devs
    unfold get_overall_assessment
    dsimp only
    split_ifs with h1 h2 h3
    · exact ⟨iff_of_true rfl h1,
        iff_of_false (by decide) (fun h => absurd h1 (not_lt.mpr (by linarith [h.1]))),
        iff_of_false (by decide) (fun h => absurd h1 (not_lt.mpr (by linarith [h.1]))),
        iff_of_false (by decide) (fun h => absurd h1 (not_lt.mpr (by linarith)))⟩
    · exact ⟨iff_of_false (by decide) h1,
        iff_of_true rfl ⟨not_lt.mp h1, h2⟩,
        iff_of_false (by decide) (fun h => absurd h2 (not_lt.mpr h.1)),
        iff_of_false (by decide) (fun h => absurd h2 (not_lt.mpr (by linarith)))⟩
    · exact ⟨iff_of_false (by decide) h1,
        iff_of_false (by decide) (fun h => absurd h.2 h2),
        iff_of_true rfl ⟨not_lt.mp h2, h3⟩,
        iff_of_false (by decide) (fun h => absurd h3 (not_lt.mpr h))⟩
    · exact ⟨iff_of_false (by decide) h1,
        iff_of_false (by decide) (fun h => absurd h.2 h2),
        iff_of_false (by decide) (fun h => absurd h.2 h3),
        iff_of_true rfl (not_lt.mp h3)⟩
  refine ⟨?_, main⟩
  have h2 : (([2] : List ℝ).map (fun d => |d|)).sum / (([2] : List ℝ).length : ℝ) = 2 := by
    norm_num
  have := (main [2]).2.1
  have hB : get_overall_assessment [2] = assessmentBPlus := by
    rw [this, h2]; norm_num
  rw [hB]
  rfl

/-- C6: for every solid propellant record of the reference table,
`solidBurnRateR` at the 70-bar reference pressure returns exactly the
record's reference `burn_rate`, because the Vieille coefficient `a` is
back-derived as `burn_rate / 70^pressure_exp`. -/
theorem C6_solid_burn_rate_reference_at_70bar :
    ∀ e ∈ PROPELLANTS, strContains e.2.type "Solid" = true →
      solidBurnRateR e.2 70 = .ok ((e.2.burn_rate.getD 0 : ℚ) : ℝ) := by
  intro e he hs
  obtain ⟨hbr, hpe⟩ := solidFieldsPresent e he hs
  obtain ⟨br, hbr⟩ := Option.isSome_iff_exists.mp hbr
  obtain ⟨pe, hpe⟩ := Option.isSome_iff_exists.mp hpe
  have h70 : ((70 : ℝ)) ^ ((pe : ℚ) : ℝ) ≠ 0 :=
    ne_of_gt (Real.rpow_pos_of_pos (by norm_num) _)
  simp only [solidBurnRateR, hs, hbr, hpe, getField, okBind, Option.getD_some]
  norm_num
  rw [div_mul_cancel₀ _ h70]

/-- C6 witness: the HTPB/AP solid record at 70 bar gives back exactly its
reference burn rate of 8.0 mm/s. -/
theorem C6_witness_HTPB_AP :
    ("HTPB/AP (Solid)", HTPBAPSolid) ∈ PROPELLANTS ∧
    strContains HTPBAPSolid.type "Solid" = true ∧
    solidBurnRateR HTPBAPSolid 70 = .ok ((8 : ℚ) : ℝ) := by
  have hmem : ("HTPB/AP (Solid)", HTPBAPSolid) ∈ PROPELLANTS := by
    simp [PROPELLANTS]
  refine ⟨hmem, by decide, ?_⟩
  have h := C6_solid_burn_rate_reference_at_70bar ("HTPB/AP (Solid)", HTPBAPSolid)
    hmem (by decide)
  have h2 : (HTPBAPSolid.burn_rate.getD 0 : ℚ) = 8 := by norm_num [HTPBAPSolid]
  dsimp only at h
  rw [h2] at h
  exact h

/-- C7: for every hybrid propellant record of the reference table and
every chamber pressure, `hybridRegressionRateR` at the reference
oxidizer flux 200 returns exactly the record's reference
`regression_rate`; the pressure contributes only through the factor
`Pc ^ 0 = 1`, so the result does not depend on `Pc` at all. -/
theorem C7_hybrid_regression_reference_flux_pressure_independent :
    ∀ e ∈ PROPELLANTS, strContains e.2.type "Hybrid" = true →
      ∀ Pc : ℚ, hybridRegressionRateR e.2 200 Pc = .ok ((e.2.regression_rate.getD 0 : ℚ) : ℝ) := by
  intro e he hh Pc
  obtain ⟨hrr, hre⟩ := hybridFieldsPresent e he hh
  obtain ⟨rr, hrr⟩ := Option.isSome_iff_exists.mp hrr
  obtain ⟨re, hre⟩ := Option.isSome_iff_exists.mp hre
  have h200 : ((200 : ℝ)) ^ ((re : ℚ) : ℝ) ≠ 0 :=
    ne_of_gt (Real.rpow_pos_of_pos (by norm_num) _)
  simp only [hybridRegressionRateR, hh, hrr, hre, getField, okBind, Option.getD_some]
  norm_num [Real.rpow_zero]
  rw [div_mul_cancel₀ _ h200]

/-- C7 witness: the HTPB/N2O hybrid record at flux 200 and an arbitrary
pressure of 37 bar gives back exactly its reference regression rate of
1.2 mm/s. -/
theorem C7_witness_HTPB_N2O :
    ("HTPB/N2O (Hybrid)", HTPBN2OHybrid) ∈ PROPELLANTS ∧
    strContains HTPBN2OHybrid.type "Hybrid" = true ∧
    hybridRegressionRateR HTPBN2OHybrid 200 37 = .ok ((1.2 : ℚ) : ℝ) := by
  have hmem : ("HTPB/N2O (Hybrid)", HTPBN2OHybrid) ∈ PROPELLANTS := by
    simp [PROPELLANTS]
  refine ⟨hmem, by decide, ?_⟩
  have h := C7_hybrid_regression_reference_flux_pressure_independent
    ("HTPB/N2O (Hybrid)", HTPBN2OHybrid) hmem (by decide) 37
  have h2 : (HTPBN2OHybrid.regression_rate.getD 0 : ℚ) = 1.2 := by norm_num [HTPBN2OHybrid]
  dsimp only at h
  rw [h2] at h
  exact h

/-- C5 counterexample: the claim "calculate_c_star is strictly positive
for every table record, every Pc and every O/F ratio" fails at the
concrete input RP-1/LOX, Pc = 20, of_ratio = 20: the O/F correction
factor 1 − 0.02·((20 − 2.3)/2.3)² is about −0.184, so the returned
characteristic velocity is negative. -/
theorem C5_cex_cstar_negative :
    ("RP-1/LOX", RP1LOX) ∈ PROPELLANTS ∧ cStarR RP1LOX 20 20 < 0 := by
  constructor
  · simp [PROPELLANTS]
  · unfold cStarR
    rw [if_pos (by norm_num), if_pos (by norm_num [RP1LOX])]
    have h1 : (((20 : ℚ) : ℝ) / 20.0) = 1 := by norm_num
    rw [h1, Real.one_rpow]
    norm_num [RP1LOX]

/-- C5 amended: `calculate_c_star` is strictly positive for every record
of the reference table and every chamber pressure, provided the O/F
correction factor stays positive, i.e. when `optimal_of = 0` (solids,
monopropellants) or when `0.02·(of_ratio − optimal_of)² < optimal_of²`;
the original claim quantified over all O/F ratios and is refuted by
`C5_cex_cstar_negative`. -/
theorem C5_cstar_positive_of_moderate_of_ratio :
    ∀ e ∈ PROPELLANTS, ∀ Pc ofRat : ℚ,
      (e.2.optimal_of = 0 ∨
        2 * (ofRat - e.2.optimal_of) ^ 2 < 100 * e.2.optimal_of ^ 2) →
      0 < cStarR e.2 Pc ofRat := by
  intro e he Pc ofRat hof
  have hb := propTableBounds e he
  have hbase : (0 : ℝ) < (e.2.c_star : ℝ) := by exact_mod_cast hb.1
  have htf : (0 : ℝ) < 1.0 + 0.0001 * ((e.2.combustion_temp : ℝ) - 3500) := by
    have h1100 : (1100 : ℝ) ≤ (e.2.combustion_temp : ℝ) := by exact_mod_cast hb.2
    norm_num
    nlinarith
  have hpf : (0 : ℝ) < (if 0 < Pc then ((Pc : ℝ) / 20.0) ^ (0.05 : ℝ) else 1.0) := by
    split_ifs with h
    · refine Real.rpow_pos_of_pos ?_ _
      have : (0 : ℝ) < (Pc : ℝ) := by exact_mod_cast h
      norm_num
      linarith
    · norm_num
  have hoff : (0 : ℝ) <
      (if 0 < e.2.optimal_of then
        1.0 - 0.02 * (((ofRat : ℝ) - (e.2.optimal_of : ℝ)) / (e.2.optimal_of : ℝ)) ^ 2
      else 1.0) := by
    split_ifs with h
    · have hoptR : (0 : ℝ) < (e.2.optimal_of : ℝ) := by exact_mod_cast h
      rcases hof with h0 | hlt
      · rw [h0] at h
        exact absurd h (lt_irrefl 0)
      · have hc : (2 : ℝ) * ((ofRat : ℝ) - (e.2.optimal_of : ℝ)) ^ 2 <
            100 * (e.2.optimal_of : ℝ) ^ 2 := by exact_mod_cast hlt
        have hsq : (0 : ℝ) < (e.2.optimal_of : ℝ) ^ 2 := pow_pos hoptR 2
        have hkey : (0.02 : ℝ) *
            (((ofRat : ℝ) - (e.2.optimal_of : ℝ)) / (e.2.optimal_of : ℝ)) ^ 2 < 1 := by
          rw [div_pow, ← mul_div_assoc]
          exact (div_lt_one hsq).mpr (by nlinarith)
        linarith
    · norm_num
  unfold cStarR
  exact mul_pos (mul_pos (mul_pos hbase hpf) hoff) htf

/-- C5 amended witness: at RP-1/LOX, Pc = 20 and the optimal O/F ratio
2.3 the hypotheses hold and the characteristic velocity is positive. -/
theorem C5_cstar_positive_witness :
    ("RP-1/LOX", RP1LOX) ∈ PROPELLANTS ∧
    (RP1LOX.optimal_of = 0 ∨
      2 * ((2.3 : ℚ) - RP1LOX.optimal_of) ^ 2 < 100 * RP1LOX.optimal_of ^ 2) ∧
    0 < cStarR RP1LOX 20 2.3 := by
  have hmem : ("RP-1/LOX", RP1LOX) ∈ PROPELLANTS := by simp [PROPELLANTS]
  have hof : (RP1LOX.optimal_of = 0 ∨
      2 * ((2.3 : ℚ) - RP1LOX.optimal_of) ^ 2 < 100 * RP1LOX.optimal_of ^ 2) :=
    Or.inr (by norm_num [RP1LOX])
  exact ⟨hmem, hof,
    C5_cstar_positive_of_moderate_of_ratio ("RP-1/LOX", RP1LOX) hmem 20 2.3 hof⟩

/-- C1: contrary to the claim that `calculate_combustion_efficiency`
returns normally with a value in [0.85, 0.995] for every table
propellant, the monopropellant records (whose `optimal_of` is 0 and
whose type string does not contain "Solid") raise `ZeroDivisionError`:
the O/F deviation term divides by `optimal_of = 0`.  Concretely, the
call for Hydrazine at Pc = 20, of_ratio = 1, coaxial injector raises
instead of returning. -/
theorem C1_monopropellant_combustion_efficiency_raises :
    calculate_combustion_efficiency "Hydrazine (N2H4)" 20 1 "coaxial" =
      .error .divByZero := by
  have hlook : lookupProp "Hydrazine (N2H4)" = .ok HydrazineN2H4 := by rfl
  have hsolid : strContains HydrazineN2H4.type "Solid" = false := by rfl
  have hopt : HydrazineN2H4.optimal_of = 0 := by norm_num [HydrazineN2H4]
  simp only [calculate_combustion_efficiency, hlook, okBind, hsolid,
    Bool.false_eq_true, if_false, pydivQ, hopt, eq_self_iff_true, if_true, errBind]

lemma pureBind {α β : Type} (a : α) (f : α → Except EngErr β) :
    (pure a : Except EngErr α) >>= f = f a := rfl

lemma lookupProp_RP1 : lookupProp "RP-1/LOX" = .ok RP1LOX := rfl

lemma lookupMat_Copper :
    lookupMat "Copper (OFHC)" = .ok { yield_strength := 200000000, erosion_rate := 0.005 } := rfl

/-- At the reference pressure 20 bar and the optimal O/F ratio, all
multiplicative corrections except the temperature factor collapse to 1,
so RP-1/LOX's characteristic velocity evaluates to 1800 · 1.02 = 1836. -/
lemma cStarR_RP1_at_optimal : cStarR RP1LOX 20 2.3 = 1836 := by
  unfold cStarR
  rw [if_pos (show (0 : ℚ) < 20 by norm_num),
    if_pos (show (0 : ℚ) < RP1LOX.optimal_of by norm_num [RP1LOX])]
  have h1 : (((20 : ℚ) : ℝ) / 20.0) = 1 := by norm_num
  rw [h1, Real.one_rpow]
  have h2 : ((RP1LOX.optimal_of : ℚ) : ℝ) = 2.3 := by norm_num [RP1LOX]
  have h3 : ((RP1LOX.combustion_temp : ℚ) : ℝ) = 3700 := by norm_num [RP1LOX]
  have h4 : ((RP1LOX.c_star : ℚ) : ℝ) = 1800 := by norm_num [RP1LOX]
  rw [h2, h3, h4]
  have h5 : (((2.3 : ℚ) : ℝ) - 2.3) / 2.3 = 0 := by norm_num
  rw [h5]
  norm_num

/-- Combustion efficiency of RP-1/LOX at 20 bar, optimal O/F and coaxial
injector: every correction factor is 1 and the base 0.98 survives the
clamp. -/
lemma combEff_RP1_at_optimal :
    calculate_combustion_efficiency "RP-1/LOX" 20 2.3 "coaxial" = .ok 0.98 := by
  have hsolid : strContains RP1LOX.type "Solid" = false := rfl
  have hhyb : strContains RP1LOX.type "Hybrid" = false := rfl
  have hhyper : strContains RP1LOX.type "Hypergolic" = false := rfl
  have hopt : RP1LOX.optimal_of = 2.3 := by norm_num [RP1LOX]
  simp only [calculate_combustion_efficiency, lookupProp_RP1, okBind, hsolid, hhyb, hhyper,
    Bool.false_eq_true, if_false, pydivQ, hopt]
  rw [if_neg (show ¬((2.3 : ℚ) = 0) by norm_num)]
  simp only [okBind]
  have hdev : (|(2.3 : ℚ) - 2.3| / 2.3 : ℚ) = 0 := by norm_num
  rw [hdev]
  have hz : (((0 : ℚ) : ℝ)) ^ ((1.5 : ℝ)) = 0 := by
    rw [Rat.cast_zero]
    exact Real.zero_rpow (by norm_num)
  rw [hz]
  rw [if_neg (by simp)]
  have hinj : ((INJECTOR_FACTORS.lookup "coaxial").getD 0.97 : ℚ) = 1.00 := rfl
  rw [hinj]
  simp only [pureBind]
  have : (0.98 : ℝ) * (1.0 - 0.03 * 0) * (1.0 + 0.001 * (((20 : ℚ) : ℝ) - 20.0)) *
      ((1.00 : ℚ) : ℝ) * 1.0 = 0.98 := by norm_num
  rw [this]
  have hclamp : min (0.995 : ℝ) (max 0.85 0.98) = 0.98 := by
    rw [max_eq_right (by norm_num), min_eq_right (by norm_num)]
  rw [hclamp]
  rfl

/-- A parameter set with valid propellant and material keys but cycle
and nozzle keys absent from their reference tables. -/
def PbadCycle : OperatingParams :=
  { thrust := 3000000, Pc := 20, ofRat := 2.3, burn_time := 10,
    propellant := "RP-1/LOX", expansion_ratio := 25, material := "Copper (OFHC)",
    cycle := some "Imaginary Cycle", nozzle_type := some "Imaginary Nozzle" }

lemma calcTheoretical_PbadCycle_ok : ∃ th, calcTheoretical PbadCycle = .ok th := by
  have hs : strContains RP1LOX.type "Solid" = false := rfl
  have hh : strContains RP1LOX.type "Hybrid" = false := rfl
  unfold calcTheoretical
  dsimp only [PbadCycle]
  simp only [calculate_gamma, calculate_c_star, lookupProp_RP1, lookupMat_Copper, okBind,
    pureBind, cStarR_RP1_at_optimal, combEff_RP1_at_optimal, pydivQ, pydivR]
  rw [if_neg (show ¬((20 : ℚ) * 100000 * 1.5 = 0) by norm_num)]
  simp only [okBind, pureBind, cStarR_RP1_at_optimal]
  rw [if_neg (show ¬((1836 : ℝ) = 0) by norm_num)]
  simp only [okBind, pureBind]
  rw [if_neg (by push_cast; norm_num)]
  simp only [okBind, pureBind, hs, hh, Bool.false_eq_true, if_false]
  exact ⟨_, rfl⟩

lemma analyze_all_aspects_PbadCycle_ok :
    ∀ th ex, ∃ a, analyze_all_aspects PbadCycle th ex = .ok a := by
  intro th ex
  unfold analyze_all_aspects
  dsimp only [PbadCycle]
  simp only [calculate_erosion_rate, lookupMat_Copper, okBind, pureBind]
  exact ⟨_, rfl⟩

/-- C2 counterexample: a parameter set whose cycle and nozzle keys are
absent from their reference tables still constructs successfully — the
claim that any absent cycle / nozzle key raises at construction is
false.  The lookup failures only surface from the post-construction
`analyze_engine_cycle` / `analyze_nozzle_performance` calls. -/
theorem C2_cex_unknown_cycle_key_constructs :
    CYCLES.lookup "Imaginary Cycle" = none ∧
    NOZZLE_TYPES.lookup "Imaginary Nozzle" = none ∧
    (mkSession (fun _ _ => 0) (0, 0) PbadCycle).isOk = true := by
  refine ⟨rfl, rfl, ?_⟩
  obtain ⟨th, hth⟩ := calcTheoretical_PbadCycle_ok
  unfold mkSession
  simp only [hth, okBind]
  dsimp only [PbadCycle]
  simp only [lookupProp_RP1, okBind]
  obtain ⟨a, ha⟩ := analyze_all_aspects_PbadCycle_ok th
    (generate_experimental_data (fun _ _ => 0) (seedRng 42) PbadCycle RP1LOX th).1
  dsimp only [PbadCycle] at ha
  simp only [ha, okBind]
  rfl

/-- C2 amended: only the propellant and material keys are checked during
session construction — an absent propellant or material key raises a
`KeyError` immediately (before any derived value is produced, as the
`Except` result carries no partial session); absent cycle / nozzle keys
are not consulted at construction (see `C2_cex_unknown_cycle_key_constructs`)
and raise only when `analyze_engine_cycle` / `analyze_nozzle_performance`
are later invoked, as witnessed here on `PbadCycle`. -/
theorem C2_construction_checks_propellant_and_material_only :
    (∀ (g : ℕ → ℕ → ℝ) (st : Rng) (p : OperatingParams),
      PROPELLANTS.lookup p.propellant = none ∨ MATERIALS.lookup p.material = none →
      mkSession g st p = .error .keyError) ∧
    analyze_engine_cycle PbadCycle = .error .keyError ∧
    analyze_nozzle_performance PbadCycle = .error .keyError := by
  refine ⟨?_, rfl, rfl⟩
  intro g st p hp
  unfold mkSession calcTheoretical
  rcases hp with hp | hp
  · have h1 : lookupProp p.propellant = .error .keyError := by
      unfold lookupProp
      rw [hp]
    simp only [h1, errBind]
  · cases h1 : lookupProp p.propellant with
    | error e =>
      have : e = .keyError := by
        unfold lookupProp at h1
        cases hlk : PROPELLANTS.lookup p.propellant with
        | none => rw [hlk] at h1; exact (Except.error.injEq _ _).mp h1.symm
        | some r => rw [hlk] at h1; exact absurd h1 (by simp)
      rw [this] at h1
      simp only [h1, errBind]
      rw [this]
    | ok r =>
      have h2 : lookupMat p.material = .error .keyError := by
        unfold lookupMat
        rw [hp]
      simp only [h1, okBind, h2, errBind]

/-- C2 amended witness: an unknown propellant key makes construction
fail with a `KeyError`. -/
theorem C2_amended_witness :
    PROPELLANTS.lookup "Unobtainium/LOX" = none ∧
    mkSession (fun _ _ => 0) (0, 0)
      { thrust := 3000000, Pc := 20, ofRat := 2.3, burn_time := 10,
        propellant := "Unobtainium/LOX", expansion_ratio := 25,
        material := "Copper (OFHC)" } = .error .keyError :=
  ⟨rfl,
    C2_construction_checks_propellant_and_material_only.1 (fun _ _ => 0) (0, 0)
      { thrust := 3000000, Pc := 20, ofRat := 2.3, burn_time := 10,
        propellant := "Unobtainium/LOX", expansion_ratio := 25,
        material := "Copper (OFHC)" } (Or.inl rfl)⟩

/-- A parameter set that is valid except for a degenerate zero target
thrust. -/
def PzeroThrust : OperatingParams :=
  { thrust := 0, Pc := 20, ofRat := 2.3, burn_time := 10,
    propellant := "RP-1/LOX", expansion_ratio := 25, material := "Copper (OFHC)" }

/-- C3: contrary to the claim that every division by a caller-influenced
quantity substitutes a default instead of faulting, a zero target thrust
makes the theoretical ISP computation divide by a zero theoretical mass
flow (`F / (mdot · 9.80665)` with `mdot = 0`) and the whole construction
aborts with `ZeroDivisionError`; the `safe_divide` helper the source
defines for this purpose is never called, so the deviation, efficiency
and stability computations never complete. -/
theorem C3_zero_thrust_raises_divide_by_zero :
    mkSession (fun _ _ => 0) (0, 0) PzeroThrust = .error .divByZero := by
  have hth : calcTheoretical PzeroThrust = .error .divByZero := by
    unfold calcTheoretical
    dsimp only [PzeroThrust]
    simp only [calculate_gamma, calculate_c_star, lookupProp_RP1, lookupMat_Copper, okBind,
      pureBind, cStarR_RP1_at_optimal, combEff_RP1_at_optimal, pydivQ, pydivR]
    rw [if_neg (show ¬((20 : ℚ) * 100000 * 1.5 = 0) by norm_num)]
    simp only [okBind, pureBind, cStarR_RP1_at_optimal]
    rw [if_neg (show ¬((1836 : ℝ) = 0) by norm_num)]
    simp only [okBind, pureBind]
    rw [if_pos (by push_cast; norm_num)]
    simp only [errBind]
  unfold mkSession
  simp only [hth, errBind]

/-- C4: sessions are reproducible — the construction re-seeds the global
generator with the fixed seed 42, so two sessions built from identical
parameter sets (and the same underlying Gaussian stream) are equal as
values, whatever the incoming generator states were: all experimental
time series and aggregate deviations coincide. -/
theorem C4_identical_params_identical_sessions :
    ∀ (g : ℕ → ℕ → ℝ) (st1 st2 : Rng) (p : OperatingParams),
      mkSession g st1 p = mkSession g st2 p := by
  intro g st1 st2 p
  rfl

lemma pureEqOk {α : Type} (a : α) : (pure a : Except EngErr α) = .ok a := rfl

lemma bind_eq_ok {α β : Type} {x : Except EngErr α} {f : α → Except EngErr β} {b : β} :
    x >>= f = .ok b ↔ ∃ a, x = .ok a ∧ f a = .ok b := by
  cases x with
  | error e => simp [errBind]
  | ok a => simp [okBind]

/-- Whenever `calculate_theoretical_performance` completes with a
positive chamber pressure, the stored theoretical thrust is identically
the caller-supplied target thrust: throat area is derived as
`thrust / (Pc_Pa · 1.5)` and theoretical thrust recomputed as
`Pc_Pa · At · 1.5`, so the factors cancel exactly. -/
lemma calcTheoretical_F_eq_thrust (p : OperatingParams) (th : TheoResult)
    (hPc : 0 < p.Pc) (hth : calcTheoretical p = .ok th) :
    th.F_theoretical = p.thrust := by
  have hden : (p.Pc * 100000 * 1.5 : ℚ) ≠ 0 :=
    ne_of_gt (mul_pos (mul_pos hPc (by norm_num)) (by norm_num))
  simp only [calcTheoretical, bind_eq_ok, pureEqOk, Except.ok.injEq] at hth
  obtain ⟨prop, hprop, mat, hmat, gam, hgam, cs, hcs, At, hAt, mdot, hmdot,
    Isp, hIsp, ce, hce, hrest⟩ := hth
  rw [pydivQ, if_neg hden] at hAt
  have hAtv : p.thrust / (p.Pc * 100000 * 1.5) = At := by
    simpa using hAt
  split_ifs at hrest with hsol hhyb
  · cases hsb : calculate_solid_burn_rate p.propellant p.Pc with
    | error e =>
      rw [hsb, errBind] at hrest
      exact absurd hrest (by simp)
    | ok br =>
      rw [hsb, okBind] at hrest
      simp only [Except.ok.injEq] at hrest
      rw [← hrest, ← hAtv]
      dsimp only
      field_simp
      ring
  · cases hsb : calculate_hybrid_regression_rate p.propellant 200.0 p.Pc with
    | error e =>
      rw [hsb, errBind] at hrest
      exact absurd hrest (by simp)
    | ok rr =>
      rw [hsb, okBind] at hrest
      simp only [Except.ok.injEq] at hrest
      rw [← hrest, ← hAtv]
      dsimp only
      field_simp
      ring
  · simp only [Except.ok.injEq] at hrest
    rw [← hrest, ← hAtv]
    dsimp only
    field_simp
    ring

/-- Liquid-propellant test used by the C10 claim: the key is in the
table and its family type string contains none of "Solid", "Hybrid",
"Monopropellant". -/
def isLiquidProp (key : String) : Bool :=
  match PROPELLANTS.lookup key with
  | some r =>
      !(strContains r.type "Solid") && !(strContains r.type "Hybrid") &&
      !(strContains r.type "Monopropellant")
  | none => false

/-- C10: for a liquid propellant and a positive chamber pressure, the
theoretical thrust stored by `calculate_theoretical_performance` equals
the caller-supplied target thrust exactly (in exact real arithmetic):
whenever the stage completes, mapping out `F_theoretical` is the same as
mapping out the target thrust, since the `Pc_Pa · 1.5` factors of the
throat-area derivation cancel. -/
theorem C10_theoretical_thrust_equals_target :
    ∀ p : OperatingParams, 0 < p.Pc → isLiquidProp p.propellant = true →
      Except.map (fun th => th.F_theoretical) (calcTheoretical p) =
        Except.map (fun _ => p.thrust) (calcTheoretical p) := by
  intro p hPc _hliq
  cases h : calcTheoretical p with
  | error e => rfl
  | ok th =>
    show Except.ok th.F_theoretical = Except.ok p.thrust
    rw [calcTheoretical_F_eq_thrust p th hPc h]

/-- C10 witness: the RP-1/LOX parameter set `PbadCycle` (liquid,
Pc = 20 > 0) instantiates the theorem. -/
theorem C10_witness_RP1 :
    0 < PbadCycle.Pc ∧ isLiquidProp PbadCycle.propellant = true ∧
    Except.map (fun th => th.F_theoretical) (calcTheoretical PbadCycle) =
      Except.map (fun _ => PbadCycle.thrust) (calcTheoretical PbadCycle) :=
  ⟨by norm_num [PbadCycle], rfl,
    C10_theoretical_thrust_equals_target PbadCycle (by norm_num [PbadCycle]) rfl⟩
